import Mathlib

/-!
Shallow embedding of `src/app/scripts/helper/firebase.js` (class `IOFirebase`,
the I/O web app's Firebase adapter) and proofs about its observable contract.

The adapter's mutable fields (`this.firebaseRef`, `this.clockOffset`) become an
explicit state record.  Calls into the external Firebase SDK (writes, listener
attachment/detachment, credential revocation, logging) are recorded as an
explicit effect list, since the SDK itself is an external collaborator of the
repository.  Asynchronous SDK callbacks (the `authWithOAuthToken` outcome, the
`/.info/serverTimeOffset` read, per-child listener events) are modelled as
separate transition functions, which is the standard shallow embedding of an
event-loop program: each synchronous run emits its effects and returns, and a
callback is a further state transition applied when the backend answers.

JavaScript numbers holding millisecond timestamps are modelled as `Int`
(the clock offset is signed); the JS truthiness test `timestamp ? a : b`
is falsy exactly on an omitted argument (`none`) and on the number `0`.
-/

/-- Result of `getAuth()` on an authenticated Firebase reference: the
credential payload. Only the `uid` field is read by the adapter. -/
structure AuthData where
  uid : String
  deriving Repr, DecidableEq

/-- Model of a `Firebase` reference as held in `this.firebaseRef`: the shard
URL it was opened on, and the credentials `getAuth()` currently reports
(`none` models `getAuth()` returning `null`). -/
structure FirebaseRef where
  url : String
  authData : Option AuthData
  deriving Repr, DecidableEq

/-- Mutable state of the `IOFirebase` instance: `firebaseRef` (`null` before
any `auth` call) and `clockOffset` (initialised to `0` in the constructor). -/
structure IOFirebaseState where
  firebaseRef : Option FirebaseRef
  clockOffset : Int
  deriving Repr, DecidableEq

/-- State produced by the constructor: no shard reference, zero clock offset. -/
def initialState : IOFirebaseState := { firebaseRef := none, clockOffset := 0 }

/-- JSON-like values written to Firebase.  `serverTimestamp` is the sentinel
`Firebase.ServerValue.TIMESTAMP`, which the backend replaces by its own clock
at write time. -/
inductive JSVal where
  | num (n : Int)
  | bool (b : Bool)
  | str (s : String)
  | serverTimestamp
  | obj (fields : List (String × JSVal))

/-- An object literal used as the argument of `ref.update(...)`: a finite map
from keys to values, in insertion order. -/
abbrev JSObj := List (String × JSVal)

/-- Calls the adapter makes into the external SDK / logging facilities,
recorded in program order. -/
inductive Effect where
  | consoleLog (msg : String)
  | debugLog (msg : String)
  | trackError (location : String)
  | trackEvent (category action label : String)
  | authWithOAuthToken (provider : String) (accessToken : String)
  | update (path : String) (value : JSObj)
  | set (path : String) (value : JSVal)
  | onDisconnectSet (path : String) (value : JSVal)
  | off (path : String)
  | once (path : String) (event : String)
  | unauthCall

/-- A JavaScript runtime error escaping a method (the adapter has exactly one
reachable one: a property access on `null`). -/
inductive JSError where
  | typeError
  deriving Repr, DecidableEq

/-- Completion signal returned by `ref.update(...)` / `ref.set(...)`: a promise
tracking the write at `path`.  A method that falls off its guard returns
`undefined` instead, modelled by `Option WritePromise = none`. -/
structure WritePromise where
  path : String

/-- Static list `IOFirebase.FIREBASE_DATABASES_URL` of Database shards. -/
def FIREBASE_DATABASES_URL : List String :=
  ["https://iowa-2016-dev.firebaseio.com/"]

/-- Shard selection over an arbitrary configured shard list:
`urls[hash(userId) % urls.length]`.  The hash is
`parseInt(crc32(userId), 16)`; `crc32` is an external utility (not part of
this repository), so the composite is abstracted as a function
`hash : String → Nat`.  Out-of-range indexing yields JS `undefined`,
modelled by `none`. -/
def selectShardIn (hash : String → Nat) (urls : List String)
    (userId : String) : Option String :=
  let shardIndex := hash userId % urls.length
  urls[shardIndex]?

/-- Static method `IOFirebase._selectShard(userId)`: shard selection over the
hardcoded `FIREBASE_DATABASES_URL` list. -/
def _selectShard (hash : String → Nat) (userId : String) : Option String :=
  selectShardIn hash FIREBASE_DATABASES_URL userId

/-- Truthiness check `this.firebaseRef && this.firebaseRef.getAuth()` from
`isAuthed()`: true iff a shard reference is stored and it currently holds
credentials. -/
def isAuthed (s : IOFirebaseState) : Bool :=
  match s.firebaseRef with
  | none => false
  | some ref => ref.authData.isSome

/-- Timestamp expression shared by the mutation methods:
`timestamp ? timestamp + this.clockOffset : Firebase.ServerValue.TIMESTAMP`.
JS truthiness makes both an omitted argument and the number `0` select the
server-value branch. -/
def resolveTimestamp (timestamp : Option Int) (clockOffset : Int) : JSVal :=
  match timestamp with
  | some t => if t = 0 then JSVal.serverTimestamp else JSVal.num (t + clockOffset)
  | none => JSVal.serverTimestamp

/-- Private method `_updateFirebaseUserData(attribute, value)`: when
`isAuthed()` is truthy, issues `ref.update(value)` at
`users/{userId}/{attribute}` and returns its promise; otherwise logs a debug
warning and returns `undefined`.  The two match arms of the guard-failure
case are exactly the states on which `isAuthed` is falsy. -/
def _updateFirebaseUserData (attrName : String) (value : JSObj)
    (s : IOFirebaseState) : Option WritePromise × List Effect :=
  match s.firebaseRef with
  | some ref =>
    match ref.authData with
    | some a =>
      let path := "users/" ++ a.uid ++ "/" ++ attrName
      (some { path := path }, [Effect.update path value])
    | none => (none, [Effect.debugLog "Trying to write to Firebase while not authorized."])
  | none => (none, [Effect.debugLog "Trying to write to Firebase while not authorized."])

/-- Private method `_setFirebaseUserData(attribute, value)`: like
`_updateFirebaseUserData` but issues a full `ref.set(value)`. -/
def _setFirebaseUserData (attrName : String) (value : JSVal)
    (s : IOFirebaseState) : Option WritePromise × List Effect :=
  match s.firebaseRef with
  | some ref =>
    match ref.authData with
    | some a =>
      let path := "users/" ++ a.uid ++ "/" ++ attrName
      (some { path := path }, [Effect.set path value])
    | none => (none, [Effect.debugLog "Trying to write to Firebase while not authorized."])
  | none => (none, [Effect.debugLog "Trying to write to Firebase while not authorized."])

/-- Method `toggleSession(sessionUUID, bookmarked, timestamp)`: merge-writes
`{sessionUUID: {timestamp: resolved, bookmarked}}` into `my_sessions`. -/
def toggleSession (sessionUUID : String) (bookmarked : Bool)
    (timestamp : Option Int) (s : IOFirebaseState) :
    Option WritePromise × List Effect :=
  let value : JSObj :=
    [(sessionUUID, JSVal.obj
      [("timestamp", resolveTimestamp timestamp s.clockOffset),
       ("bookmarked", JSVal.bool bookmarked)])]
  _updateFirebaseUserData "my_sessions" value s

/-- Method `markSessionRated(sessionUUID, timestamp)`: merge-writes
`{sessionUUID: {timestamp: resolved}}` into `feedback`. -/
def markSessionRated (sessionUUID : String) (timestamp : Option Int)
    (s : IOFirebaseState) : Option WritePromise × List Effect :=
  let value : JSObj :=
    [(sessionUUID, JSVal.obj [("timestamp", resolveTimestamp timestamp s.clockOffset)])]
  _updateFirebaseUserData "feedback" value s

/-- Method `markVideoAsViewed(videoId, timestamp)`: merge-writes
`{videoId: resolved}` into `viewed_videos` (the timestamp is the value
itself, not wrapped in an object). -/
def markVideoAsViewed (videoId : String) (timestamp : Option Int)
    (s : IOFirebaseState) : Option WritePromise × List Effect :=
  let value : JSObj := [(videoId, resolveTimestamp timestamp s.clockOffset)]
  _updateFirebaseUserData "viewed_videos" value s

/-- Method `addGcmId(gcmId)` (the spec's `addNotificationId`): merge-writes
`{gcmId: true}` into `gcm_ids`. -/
def addGcmId (gcmId : String) (s : IOFirebaseState) :
    Option WritePromise × List Effect :=
  let value : JSObj := [(gcmId, JSVal.bool true)]
  _updateFirebaseUserData "gcm_ids" value s

/-- Private method `_updateClockOffset()`: when a shard reference is stored,
issues a one-shot read of the reserved path `/.info/serverTimeOffset`
(`offsetRef.once('value', ...)`); otherwise does nothing. -/
def _updateClockOffset (s : IOFirebaseState) : List Effect :=
  match s.firebaseRef with
  | some _ => [Effect.once "/.info/serverTimeOffset" "value"]
  | none => []

/-- Callback of the `once('value', ...)` read in `_updateClockOffset`: stores
the snapshot's value (`snap.val()`) into `this.clockOffset` and logs. -/
def _updateClockOffset_onValue (snapVal : Int) (s : IOFirebaseState) :
    IOFirebaseState × List Effect :=
  ({ s with clockOffset := snapVal },
   [Effect.debugLog "Updated clock offset"])

/-- Method `auth(userId, accessToken)`: resolves the shard, logs the choice,
stores a fresh (not yet credentialed) reference to it, starts the OAuth-token
exchange, and finally calls `_updateClockOffset()`.  The unreachable `none`
branch models `new Firebase(undefined)` throwing; `FIREBASE_DATABASES_URL` is
nonempty so `_selectShard` never yields it. -/
def auth (hash : String → Nat) (userId accessToken : String)
    (s : IOFirebaseState) : Except JSError (IOFirebaseState × List Effect) :=
  match _selectShard hash userId with
  | none => Except.error JSError.typeError
  | some firebaseShardUrl =>
    let s' : IOFirebaseState :=
      { s with firebaseRef := some { url := firebaseShardUrl, authData := none } }
    Except.ok (s',
      [Effect.consoleLog ("Chose the following Firebase Database Shard: " ++ firebaseShardUrl),
       Effect.authWithOAuthToken "google" accessToken]
      ++ _updateClockOffset s')

/-- Backend transition modelling a successful OAuth exchange: the SDK records
credentials on the stored reference, so `getAuth()` returns them from now on.
This happens inside the external SDK before the user callback runs. -/
def grantAuth (uid : String) (s : IOFirebaseState) : IOFirebaseState :=
  { s with firebaseRef :=
      s.firebaseRef.map fun ref => { ref with authData := some { uid := uid } } }

/-- Private method `_bumpLastActivityTimestamp()`: arranges an on-disconnect
write of the server timestamp at `users/{uid}/last_activity_timestamp` and
sets the same attribute immediately.  Dereferencing `getAuth().uid` without a
guard, it throws if no credentials are held. -/
def _bumpLastActivityTimestamp (s : IOFirebaseState) :
    Except JSError (Option WritePromise × List Effect) :=
  match s.firebaseRef with
  | none => Except.error JSError.typeError
  | some ref =>
    match ref.authData with
    | none => Except.error JSError.typeError
    | some a =>
      let res := _setFirebaseUserData "last_activity_timestamp" JSVal.serverTimestamp s
      Except.ok (res.1,
        Effect.onDisconnectSet ("users/" ++ a.uid ++ "/last_activity_timestamp")
          JSVal.serverTimestamp :: res.2)

/-- Failure branch of the `authWithOAuthToken` callback in `auth`: reports to
analytics and the debug log; the reference stays stored but uncredentialed. -/
def authOnFailure (s : IOFirebaseState) : IOFirebaseState × List Effect :=
  (s, [Effect.trackError "this.firebaseRef.authWithOAuthToken(...)",
       Effect.debugLog "Login to Firebase Failed!"])

/-- Success branch of the `authWithOAuthToken` callback in `auth`, run after
the SDK has granted credentials (`grantAuth`): bumps the last-activity
timestamp, then reports success to analytics and the debug log. -/
def authOnSuccess (uid firebaseShardUrl : String) (s : IOFirebaseState) :
    Except JSError (IOFirebaseState × List Effect) :=
  let s' := grantAuth uid s
  match _bumpLastActivityTimestamp s' with
  | Except.error e => Except.error e
  | Except.ok res =>
    Except.ok (s', res.2 ++
      [Effect.trackEvent "login" "success" firebaseShardUrl,
       Effect.debugLog ("Authenticated successfully to Firebase shard " ++ firebaseShardUrl)])

/-- Method `unAuth()`: no-op when no reference is stored.  Otherwise it reads
`getAuth().uid` (throwing if the reference holds no credentials), detaches
all callbacks on the user's `my_sessions` and `feedback` locations, revokes
the credentials (`unauth()`), logs, and clears the stored reference — in that
order. -/
def unAuth (s : IOFirebaseState) :
    Except JSError (IOFirebaseState × List Effect) :=
  match s.firebaseRef with
  | none => Except.ok (s, [])
  | some ref =>
    match ref.authData with
    | none => Except.error JSError.typeError
    | some a =>
      Except.ok ({ s with firebaseRef := none },
        [Effect.off ("users/" ++ a.uid ++ "/my_sessions"),
         Effect.off ("users/" ++ a.uid ++ "/feedback"),
         Effect.unauthCall,
         Effect.debugLog "Unauthorized Firebase"])

/-- Child-event kinds a Firebase location accepts via `ref.on(event, ...)`. -/
inductive ChildEvent where
  | childAdded
  | childChanged
  | childRemoved
  deriving Repr, DecidableEq

/-- Data snapshot passed by the SDK to a child-event handler: the child's key
and its value at the location. -/
structure Snapshot where
  key : String
  val : JSVal

/-- One handler registered with `ref.on(event, handler)` at a location. -/
structure Listener (α : Type) where
  path : String
  event : ChildEvent
  handler : Snapshot → α

/-- Private method `_registerToUpdates(attribute, callback)`: when
`isAuthed()` is truthy, attaches three handlers — child added, child changed,
child removed — at `users/{userId}/{attribute}`; added/changed invoke
`callback(key, value)` with the snapshot's value, removed invokes
`callback(key, null)`.  When not authed it only logs a debug warning. -/
def _registerToUpdates {α : Type} (attrName : String)
    (callback : String → Option JSVal → α) (s : IOFirebaseState) :
    List (Listener α) × List Effect :=
  match s.firebaseRef with
  | some ref =>
    match ref.authData with
    | some a =>
      let path := "users/" ++ a.uid ++ "/" ++ attrName
      ([{ path := path, event := ChildEvent.childAdded,
          handler := fun dataSnapshot => callback dataSnapshot.key (some dataSnapshot.val) },
        { path := path, event := ChildEvent.childChanged,
          handler := fun dataSnapshot => callback dataSnapshot.key (some dataSnapshot.val) },
        { path := path, event := ChildEvent.childRemoved,
          handler := fun dataSnapshot => callback dataSnapshot.key none }], [])
    | none => ([], [Effect.debugLog "Trying to subscribe to Firebase while not authorized."])
  | none => ([], [Effect.debugLog "Trying to subscribe to Firebase while not authorized."])

/-- Method `registerToSessionUpdates(callback)` (the spec's
`subscribeToSessionUpdates`): subscribes to the `my_sessions` attribute. -/
def registerToSessionUpdates {α : Type} (callback : String → Option JSVal → α)
    (s : IOFirebaseState) : List (Listener α) × List Effect :=
  _registerToUpdates "my_sessions" callback s

/-- Method `registerToFeedbackUpdates(callback)` (the spec's
`subscribeToFeedbackUpdates`): subscribes to the `feedback` attribute. -/
def registerToFeedbackUpdates {α : Type} (callback : String → Option JSVal → α)
    (s : IOFirebaseState) : List (Listener α) × List Effect :=
  _registerToUpdates "feedback" callback s

/-- Backend event delivery: when a child event fires at a location, the SDK
invokes every handler registered there for that event kind, in registration
order.  Modelled from the SDK's documented `on`/`off` behaviour. -/
def dispatchChildEvent {α : Type} (listeners : List (Listener α))
    (path : String) (event : ChildEvent) (snap : Snapshot) : List α :=
  (listeners.filter fun l => l.path == path && l.event == event).map
    fun l => l.handler snap

/-- Lookup of a key in an object/collection (first binding wins). -/
def lookupKey (k : String) (o : JSObj) : Option JSVal :=
  match o with
  | [] => none
  | (k', v) :: rest => if k' = k then some v else lookupKey k rest

/-- Replacement or insertion of a single key's binding in a collection. -/
def setKey (k : String) (v : JSVal) (o : JSObj) : JSObj :=
  match o with
  | [] => [(k, v)]
  | (k', v') :: rest => if k' = k then (k, v) :: rest else (k', v') :: setKey k v rest

/-- Merge semantics of the external SDK's `ref.update(value)` applied to the
collection stored at the target location, modelled from the SDK's documented
behaviour: each key named in `value` has its child replaced, and every
sibling key not named in `value` keeps its binding. -/
def updateMerge (coll patch : JSObj) : JSObj :=
  patch.foldl (fun acc kv => setKey kv.1 kv.2 acc) coll

/-- With the hardcoded single-shard list, every user hashes to index `0`, so
`_selectShard` always yields the one configured URL. -/
theorem _selectShard_eq (hash : String → Nat) (userId : String) :
    _selectShard hash userId = some "https://iowa-2016-dev.firebaseio.com/" := by
  simp [_selectShard, selectShardIn, FIREBASE_DATABASES_URL, Nat.mod_one]

/-- C2: for every user ID and every configured shard list of size at least 1,
shard selection returns an element of the configured list (the index
`hash(userId) % urls.length` is never out of range); on the hardcoded list it
deterministically returns the single configured URL. -/
theorem selectShard_in_range (hash : String → Nat) (urls : List String)
    (userId : String) (h : 1 ≤ urls.length) :
    (∃ u, selectShardIn hash urls userId = some u ∧ u ∈ urls)
    ∧ _selectShard hash userId = some "https://iowa-2016-dev.firebaseio.com/" := by
  constructor
  · have hlt : hash userId % urls.length < urls.length := Nat.mod_lt _ (by omega)
    refine ⟨urls[hash userId % urls.length], ?_, ?_⟩
    · simp [selectShardIn, List.getElem?_eq_getElem hlt]
    · exact List.getElem_mem _
  · exact _selectShard_eq hash userId

/-- Witness for C2 at a concrete hash, user ID, and the configured list. -/
theorem selectShard_in_range_witness :
    1 ≤ FIREBASE_DATABASES_URL.length
    ∧ ((∃ u, selectShardIn String.length FIREBASE_DATABASES_URL "user123" = some u
          ∧ u ∈ FIREBASE_DATABASES_URL)
       ∧ _selectShard String.length "user123" =
          some "https://iowa-2016-dev.firebaseio.com/") :=
  ⟨by decide, selectShard_in_range String.length FIREBASE_DATABASES_URL "user123" (by decide)⟩

/-- C4: calling `unAuth()` with no stored connection reference leaves the
state unchanged, performs no backend call, logs nothing, and throws no
error. -/
theorem unAuth_unauthenticated_noop (s : IOFirebaseState)
    (h : s.firebaseRef = none) : unAuth s = Except.ok (s, []) := by
  simp [unAuth, h]

/-- Witness for C4 at the constructor state. -/
theorem unAuth_unauthenticated_noop_witness :
    initialState.firebaseRef = none
    ∧ unAuth initialState = Except.ok (initialState, []) :=
  ⟨rfl, unAuth_unauthenticated_noop initialState rfl⟩

/-- C5: `unAuth()` on an authenticated connection first detaches the
`my_sessions` and `feedback` listeners of the current user, only then revokes
the credentials, and clears the stored reference last (in the returned
state); in particular credentials are never revoked before the detach
calls. -/
theorem unAuth_detach_before_revoke (s : IOFirebaseState) (ref : FirebaseRef)
    (a : AuthData) (href : s.firebaseRef = some ref)
    (ha : ref.authData = some a) :
    unAuth s = Except.ok ({ s with firebaseRef := none },
      [Effect.off ("users/" ++ a.uid ++ "/my_sessions"),
       Effect.off ("users/" ++ a.uid ++ "/feedback"),
       Effect.unauthCall,
       Effect.debugLog "Unauthorized Firebase"]) := by
  simp [unAuth, href, ha]

/-- Witness for C5 at a concrete authenticated state. -/
theorem unAuth_detach_before_revoke_witness :
    unAuth { firebaseRef := some { url := "https://iowa-2016-dev.firebaseio.com/",
                                   authData := some { uid := "u1" } },
             clockOffset := 50 } =
      Except.ok ({ firebaseRef := none, clockOffset := 50 },
        [Effect.off "users/u1/my_sessions",
         Effect.off "users/u1/feedback",
         Effect.unauthCall,
         Effect.debugLog "Unauthorized Firebase"]) := by
  have h := unAuth_detach_before_revoke
    { firebaseRef := some { url := "https://iowa-2016-dev.firebaseio.com/",
                            authData := some { uid := "u1" } },
      clockOffset := 50 }
    { url := "https://iowa-2016-dev.firebaseio.com/", authData := some { uid := "u1" } }
    { uid := "u1" } rfl rfl
  simpa using h

/-- C3: `isAuthed()` is true exactly when a connection reference is stored
and currently holds credentials; it is false in the constructor state, true
after `auth` followed by a successful OAuth exchange, and false after a
completed `unAuth`. -/
theorem isAuthed_lifecycle :
    (∀ s : IOFirebaseState,
        isAuthed s = true ↔
          ∃ ref, s.firebaseRef = some ref ∧ ref.authData.isSome = true)
    ∧ isAuthed initialState = false
    ∧ (∀ (hash : String → Nat) (userId accessToken uid shardUrl : String)
          (s s₁ s₂ : IOFirebaseState) (effs₁ effs₂ : List Effect),
        auth hash userId accessToken s = Except.ok (s₁, effs₁) →
        authOnSuccess uid shardUrl s₁ = Except.ok (s₂, effs₂) →
        isAuthed s₂ = true)
    ∧ (∀ (s s' : IOFirebaseState) (effs : List Effect),
        unAuth s = Except.ok (s', effs) → isAuthed s' = false) := by
  refine ⟨?_, rfl, ?_, ?_⟩
  · intro s
    match h : s.firebaseRef with
    | none => simp [isAuthed, h]
    | some ref => simp [isAuthed, h]
  · intro hash userId accessToken uid shardUrl s s₁ s₂ effs₁ effs₂ hauth hsucc
    simp only [auth, _selectShard_eq, Except.ok.injEq, Prod.mk.injEq] at hauth
    obtain ⟨hs₁, -⟩ := hauth
    simp only [authOnSuccess, ← hs₁, grantAuth, Option.map_some',
      _bumpLastActivityTimestamp, _setFirebaseUserData,
      Except.ok.injEq, Prod.mk.injEq] at hsucc
    obtain ⟨hs₂, -⟩ := hsucc
    simp [← hs₂, isAuthed]
  · intro s s' effs hun
    match h : s.firebaseRef with
    | none =>
      simp only [unAuth, h, Except.ok.injEq, Prod.mk.injEq] at hun
      obtain ⟨hs, -⟩ := hun
      simp [← hs, isAuthed, h]
    | some ref =>
      match ha : ref.authData with
      | none => simp [unAuth, h, ha] at hun
      | some a =>
        simp only [unAuth, h, ha, Except.ok.injEq, Prod.mk.injEq] at hun
        obtain ⟨hs, -⟩ := hun
        simp [← hs, isAuthed]

/-- Witness for C3: a concrete auth-success run is authed, and a concrete
`unAuth` run is not. -/
theorem isAuthed_lifecycle_witness :
    isAuthed { firebaseRef := some { url := "https://iowa-2016-dev.firebaseio.com/",
                                     authData := some { uid := "u1" } },
               clockOffset := 0 } = true
    ∧ isAuthed { firebaseRef := none, clockOffset := 0 } = false := by
  constructor
  · exact isAuthed_lifecycle.2.2.1 String.length "u" "tok" "u1"
      "https://iowa-2016-dev.firebaseio.com/" initialState _ _ _ _ rfl rfl
  · exact isAuthed_lifecycle.2.2.2
      { firebaseRef := some { url := "https://iowa-2016-dev.firebaseio.com/",
                              authData := some { uid := "u1" } },
        clockOffset := 0 } _ _ rfl

/-- C9: every `auth` call, before the OAuth exchange resolves either way,
issues the one-shot read of `/.info/serverTimeOffset`; and the read's
callback stores the snapshot value in `clockOffset` (touching nothing
else). -/
theorem auth_refreshes_clock_offset (hash : String → Nat)
    (userId accessToken : String) (s : IOFirebaseState) :
    (∃ s' effs, auth hash userId accessToken s = Except.ok (s', effs)
      ∧ Effect.once "/.info/serverTimeOffset" "value" ∈ effs)
    ∧ (∀ (v : Int) (s₀ : IOFirebaseState),
        (_updateClockOffset_onValue v s₀).1.clockOffset = v
        ∧ (_updateClockOffset_onValue v s₀).1.firebaseRef = s₀.firebaseRef) := by
  constructor
  · have h : auth hash userId accessToken s = Except.ok
        ({ s with
            firebaseRef := some (FirebaseRef.mk "https://iowa-2016-dev.firebaseio.com/" none) },
         [Effect.consoleLog
            "Chose the following Firebase Database Shard: https://iowa-2016-dev.firebaseio.com/",
          Effect.authWithOAuthToken "google" accessToken,
          Effect.once "/.info/serverTimeOffset" "value"]) := by
      simp [auth, _selectShard_eq, _updateClockOffset]
    exact ⟨_, _, h, by simp⟩
  · intro v s₀
    simp [_updateClockOffset_onValue]

/-- C10: each mutation method returns the backend write's completion promise
exactly when the adapter is authenticated, and `undefined` (no completion
signal) otherwise. -/
theorem mutation_return_promise (s : IOFirebaseState)
    (sessionUUID videoId gcmId : String) (bookmarked : Bool)
    (t₁ t₂ t₃ : Option Int) :
    ((toggleSession sessionUUID bookmarked t₁ s).1.isSome = isAuthed s)
    ∧ ((markSessionRated sessionUUID t₂ s).1.isSome = isAuthed s)
    ∧ ((markVideoAsViewed videoId t₃ s).1.isSome = isAuthed s)
    ∧ ((addGcmId gcmId s).1.isSome = isAuthed s) := by
  match h : s.firebaseRef with
  | none =>
    simp [toggleSession, markSessionRated, markVideoAsViewed, addGcmId,
      _updateFirebaseUserData, isAuthed, h]
  | some ref =>
    match ha : ref.authData with
    | none =>
      simp [toggleSession, markSessionRated, markVideoAsViewed, addGcmId,
        _updateFirebaseUserData, isAuthed, h, ha]
    | some a =>
      simp [toggleSession, markSessionRated, markVideoAsViewed, addGcmId,
        _updateFirebaseUserData, isAuthed, h, ha]

/-- C8: while unauthenticated, every mutation method and every subscribe
method issues no backend call and no write, produces exactly one debug-log
side effect, and returns `undefined` / attaches nothing instead of raising
an error. -/
theorem unauthed_methods_noop (s : IOFirebaseState) (h : isAuthed s = false) :
    (∀ (sessionUUID : String) (bookmarked : Bool) (timestamp : Option Int),
        toggleSession sessionUUID bookmarked timestamp s =
          (none, [Effect.debugLog "Trying to write to Firebase while not authorized."]))
    ∧ (∀ (sessionUUID : String) (timestamp : Option Int),
        markSessionRated sessionUUID timestamp s =
          (none, [Effect.debugLog "Trying to write to Firebase while not authorized."]))
    ∧ (∀ (videoId : String) (timestamp : Option Int),
        markVideoAsViewed videoId timestamp s =
          (none, [Effect.debugLog "Trying to write to Firebase while not authorized."]))
    ∧ (∀ gcmId : String,
        addGcmId gcmId s =
          (none, [Effect.debugLog "Trying to write to Firebase while not authorized."]))
    ∧ (∀ (α : Type) (callback : String → Option JSVal → α),
        registerToSessionUpdates callback s =
          ([], [Effect.debugLog "Trying to subscribe to Firebase while not authorized."]))
    ∧ (∀ (α : Type) (callback : String → Option JSVal → α),
        registerToFeedbackUpdates callback s =
          ([], [Effect.debugLog "Trying to subscribe to Firebase while not authorized."])) := by
  match hr : s.firebaseRef with
  | none =>
    refine ⟨?_, ?_, ?_, ?_, ?_, ?_⟩ <;> intros <;>
      simp [toggleSession, markSessionRated, markVideoAsViewed, addGcmId,
        registerToSessionUpdates, registerToFeedbackUpdates,
        _updateFirebaseUserData, _registerToUpdates, hr]
  | some ref =>
    match ha : ref.authData with
    | none =>
      refine ⟨?_, ?_, ?_, ?_, ?_, ?_⟩ <;> intros <;>
        simp [toggleSession, markSessionRated, markVideoAsViewed, addGcmId,
          registerToSessionUpdates, registerToFeedbackUpdates,
          _updateFirebaseUserData, _registerToUpdates, hr, ha]
    | some a => simp [isAuthed, hr, ha] at h

/-- Witness for C8 at the constructor state. -/
theorem unauthed_methods_noop_witness :
    isAuthed initialState = false
    ∧ toggleSession "s1" true (some 10) initialState =
        (none, [Effect.debugLog "Trying to write to Firebase while not authorized."])
    ∧ markSessionRated "s1" none initialState =
        (none, [Effect.debugLog "Trying to write to Firebase while not authorized."])
    ∧ markVideoAsViewed "v1" (some 10) initialState =
        (none, [Effect.debugLog "Trying to write to Firebase while not authorized."])
    ∧ addGcmId "g1" initialState =
        (none, [Effect.debugLog "Trying to write to Firebase while not authorized."])
    ∧ registerToSessionUpdates (fun k v => (k, v)) initialState =
        ([], [Effect.debugLog "Trying to subscribe to Firebase while not authorized."])
    ∧ registerToFeedbackUpdates (fun k v => (k, v)) initialState =
        ([], [Effect.debugLog "Trying to subscribe to Firebase while not authorized."]) := by
  have h := unauthed_methods_noop initialState rfl
  exact ⟨rfl, h.1 "s1" true (some 10), h.2.1 "s1" none, h.2.2.1 "v1" (some 10),
    h.2.2.2.1 "g1", h.2.2.2.2.1 (String × Option JSVal) (fun k v => (k, v)),
    h.2.2.2.2.2 (String × Option JSVal) (fun k v => (k, v))⟩

/-- Replacing one key's binding leaves the lookup of every other key
unchanged. -/
theorem lookupKey_setKey_of_ne (k k' : String) (v : JSVal) (o : JSObj)
    (h : k ≠ k') : lookupKey k (setKey k' v o) = lookupKey k o := by
  induction o with
  | nil =>
    simp only [setKey, lookupKey]
    rw [if_neg fun hh => h hh.symm]
  | cons kv rest ih =>
    obtain ⟨k₀, v₀⟩ := kv
    simp only [setKey]
    by_cases h₀ : k₀ = k'
    · subst h₀
      simp only [if_pos rfl, lookupKey]
      rw [if_neg fun hh => h hh.symm, if_neg fun hh => h hh.symm]
    · simp only [if_neg h₀, lookupKey]
      by_cases hk : k₀ = k
      · simp [hk]
      · simp [hk, ih]

/-- C6: on an authenticated connection with clock offset 50,
`toggleSession("abc", true, 1000)` issues a single merge-style `update` of
`{abc: {timestamp: 1050, bookmarked: true}}` at the user's `my_sessions`
location (never a full-replace `set`), and applying that merge to any stored
collection leaves every entry under a key other than `"abc"` unchanged. -/
theorem toggleSession_merge_frame (url uid : String) (coll : JSObj)
    (k : String) (hk : k ≠ "abc") :
    (toggleSession "abc" true (some 1000)
        { firebaseRef := some { url := url, authData := some { uid := uid } },
          clockOffset := 50 }).2 =
      [Effect.update ("users/" ++ uid ++ "/my_sessions")
        [("abc", JSVal.obj [("timestamp", JSVal.num 1050),
                            ("bookmarked", JSVal.bool true)])]]
    ∧ lookupKey k (updateMerge coll
        [("abc", JSVal.obj [("timestamp", JSVal.num 1050),
                            ("bookmarked", JSVal.bool true)])]) = lookupKey k coll := by
  constructor
  · simp [toggleSession, _updateFirebaseUserData, resolveTimestamp,
      String.append_assoc]
  · simp only [updateMerge, List.foldl]
    exact lookupKey_setKey_of_ne k "abc" _ coll hk

/-- Witness for C6: a concrete sibling entry `"xyz"` survives the merge. -/
theorem toggleSession_merge_frame_witness :
    (toggleSession "abc" true (some 1000)
        { firebaseRef := some { url := "https://iowa-2016-dev.firebaseio.com/",
                                authData := some { uid := "u1" } },
          clockOffset := 50 }).2 =
      [Effect.update "users/u1/my_sessions"
        [("abc", JSVal.obj [("timestamp", JSVal.num 1050),
                            ("bookmarked", JSVal.bool true)])]]
    ∧ lookupKey "xyz" (updateMerge [("xyz", JSVal.num 7)]
        [("abc", JSVal.obj [("timestamp", JSVal.num 1050),
                            ("bookmarked", JSVal.bool true)])]) =
        lookupKey "xyz" [("xyz", JSVal.num 7)] := by
  have h := toggleSession_merge_frame "https://iowa-2016-dev.firebaseio.com/" "u1"
    [("xyz", JSVal.num 7)] "xyz" (by decide)
  simpa using h

/-- C7: while authenticated, each subscribe call attaches exactly three
handlers — child added, child changed, child removed — at the attribute's
location, the added/changed handlers invoking `callback(key, value)` and the
removed handler invoking `callback(key, null)`; and two independent
registrations with different callbacks are both invoked with `null` when a
child-removed event is delivered. -/
theorem registerToUpdates_three_handlers {α : Type} (url uid : String)
    (s : IOFirebaseState)
    (h : s.firebaseRef = some { url := url, authData := some { uid := uid } })
    (cb cb1 cb2 : String → Option JSVal → α) :
    ((registerToSessionUpdates cb s).1 =
      [{ path := "users/" ++ uid ++ "/my_sessions", event := ChildEvent.childAdded,
         handler := fun dataSnapshot => cb dataSnapshot.key (some dataSnapshot.val) },
       { path := "users/" ++ uid ++ "/my_sessions", event := ChildEvent.childChanged,
         handler := fun dataSnapshot => cb dataSnapshot.key (some dataSnapshot.val) },
       { path := "users/" ++ uid ++ "/my_sessions", event := ChildEvent.childRemoved,
         handler := fun dataSnapshot => cb dataSnapshot.key none }])
    ∧ ((registerToFeedbackUpdates cb s).1 =
      [{ path := "users/" ++ uid ++ "/feedback", event := ChildEvent.childAdded,
         handler := fun dataSnapshot => cb dataSnapshot.key (some dataSnapshot.val) },
       { path := "users/" ++ uid ++ "/feedback", event := ChildEvent.childChanged,
         handler := fun dataSnapshot => cb dataSnapshot.key (some dataSnapshot.val) },
       { path := "users/" ++ uid ++ "/feedback", event := ChildEvent.childRemoved,
         handler := fun dataSnapshot => cb dataSnapshot.key none }])
    ∧ (∀ (k : String) (v : JSVal),
        dispatchChildEvent
          ((registerToSessionUpdates cb1 s).1 ++ (registerToSessionUpdates cb2 s).1)
          ("users/" ++ uid ++ "/my_sessions") ChildEvent.childRemoved
          { key := k, val := v } = [cb1 k none, cb2 k none]) := by
  refine ⟨?_, ?_, ?_⟩
  · simp [registerToSessionUpdates, _registerToUpdates, h, String.append_assoc]
  · simp [registerToFeedbackUpdates, _registerToUpdates, h, String.append_assoc]
  · intro k v
    simp [registerToSessionUpdates, _registerToUpdates, h, dispatchChildEvent,
      List.filter_cons, beq_iff_eq, String.append_assoc]

/-- Witness for C7: two concrete registrations both hear a removal as
`null`. -/
theorem registerToUpdates_three_handlers_witness :
    dispatchChildEvent
      ((registerToSessionUpdates (fun k v => ("cb1", k, v))
          { firebaseRef := some { url := "https://iowa-2016-dev.firebaseio.com/",
                                  authData := some { uid := "u1" } },
            clockOffset := 0 }).1 ++
       (registerToSessionUpdates (fun k v => ("cb2", k, v))
          { firebaseRef := some { url := "https://iowa-2016-dev.firebaseio.com/",
                                  authData := some { uid := "u1" } },
            clockOffset := 0 }).1)
      "users/u1/my_sessions" ChildEvent.childRemoved
      { key := "sess", val := JSVal.num 3 } =
      [("cb1", "sess", (none : Option JSVal)), ("cb2", "sess", none)] := by
  have h := (registerToUpdates_three_handlers
    "https://iowa-2016-dev.firebaseio.com/" "u1"
    { firebaseRef := some { url := "https://iowa-2016-dev.firebaseio.com/",
                            authData := some { uid := "u1" } },
      clockOffset := 0 } rfl
    (fun k v => ("cb", k, v)) (fun k v => ("cb1", k, v))
    (fun k v => ("cb2", k, v))).2.2 "sess" (JSVal.num 3)
  simpa using h

/-- C1 counterexample: a caller-supplied timestamp of `0` (a falsy JS
number) with clock offset `50` is written as the backend sentinel, not as
`0 + 50`. -/
theorem timestamp_zero_counterexample :
    (toggleSession "abc" true (some 0)
        { firebaseRef := some { url := "https://iowa-2016-dev.firebaseio.com/",
                                authData := some { uid := "u1" } },
          clockOffset := 50 }).2 =
      [Effect.update "users/u1/my_sessions"
        [("abc", JSVal.obj [("timestamp", JSVal.serverTimestamp),
                            ("bookmarked", JSVal.bool true)])]]
    ∧ JSVal.serverTimestamp ≠ JSVal.num (0 + 50) := by
  constructor
  · simp [toggleSession, _updateFirebaseUserData, resolveTimestamp,
      String.append_assoc]
  · intro hcontra
    exact JSVal.noConfusion hcontra

/-- C1 (amended): while authenticated, a mutation call that supplies a
nonzero local timestamp `t` writes exactly `t + clockOffset`; a call that
omits the timestamp (and likewise one passing the falsy number `0`) writes
the backend-assigned server-timestamp sentinel. -/
theorem mutation_timestamp_resolution (s : IOFirebaseState) (ref : FirebaseRef)
    (a : AuthData) (href : s.firebaseRef = some ref)
    (ha : ref.authData = some a) (sessionUUID videoId : String)
    (bookmarked : Bool) (t : Int) (ht : t ≠ 0) :
    ((toggleSession sessionUUID bookmarked (some t) s).2 =
      [Effect.update ("users/" ++ a.uid ++ "/my_sessions")
        [(sessionUUID, JSVal.obj [("timestamp", JSVal.num (t + s.clockOffset)),
                                  ("bookmarked", JSVal.bool bookmarked)])]])
    ∧ ((markSessionRated sessionUUID (some t) s).2 =
      [Effect.update ("users/" ++ a.uid ++ "/feedback")
        [(sessionUUID, JSVal.obj [("timestamp", JSVal.num (t + s.clockOffset))])]])
    ∧ ((markVideoAsViewed videoId (some t) s).2 =
      [Effect.update ("users/" ++ a.uid ++ "/viewed_videos")
        [(videoId, JSVal.num (t + s.clockOffset))]])
    ∧ ((toggleSession sessionUUID bookmarked none s).2 =
      [Effect.update ("users/" ++ a.uid ++ "/my_sessions")
        [(sessionUUID, JSVal.obj [("timestamp", JSVal.serverTimestamp),
                                  ("bookmarked", JSVal.bool bookmarked)])]])
    ∧ ((markSessionRated sessionUUID none s).2 =
      [Effect.update ("users/" ++ a.uid ++ "/feedback")
        [(sessionUUID, JSVal.obj [("timestamp", JSVal.serverTimestamp)])]])
    ∧ ((markVideoAsViewed videoId none s).2 =
      [Effect.update ("users/" ++ a.uid ++ "/viewed_videos")
        [(videoId, JSVal.serverTimestamp)]]) := by
  refine ⟨?_, ?_, ?_, ?_, ?_, ?_⟩ <;>
    simp [toggleSession, markSessionRated, markVideoAsViewed,
      _updateFirebaseUserData, resolveTimestamp, href, ha, ht,
      String.append_assoc]

/-- Witness for the amended C1 at timestamp `1000` and offset `50`. -/
theorem mutation_timestamp_resolution_witness :
    ((toggleSession "s1" true (some 1000)
        { firebaseRef := some { url := "https://iowa-2016-dev.firebaseio.com/",
                                authData := some { uid := "u1" } },
          clockOffset := 50 }).2 =
      [Effect.update "users/u1/my_sessions"
        [("s1", JSVal.obj [("timestamp", JSVal.num 1050),
                           ("bookmarked", JSVal.bool true)])]])
    ∧ ((markVideoAsViewed "v1" none
        { firebaseRef := some { url := "https://iowa-2016-dev.firebaseio.com/",
                                authData := some { uid := "u1" } },
          clockOffset := 50 }).2 =
      [Effect.update "users/u1/viewed_videos"
        [("v1", JSVal.serverTimestamp)]]) := by
  have h := mutation_timestamp_resolution
    { firebaseRef := some { url := "https://iowa-2016-dev.firebaseio.com/",
                            authData := some { uid := "u1" } },
      clockOffset := 50 }
    { url := "https://iowa-2016-dev.firebaseio.com/",
      authData := some { uid := "u1" } }
    { uid := "u1" } rfl rfl "s1" "v1" true 1000 (by decide)
  refine ⟨?_, ?_⟩
  · have h1 := h.1
    simpa using h1
  · have h2 := h.2.2.2.2.2
    simpa using h2
